import Mathlib

/-!
Shallow embedding of the ProyectoAviones airport simulator
(`src/models/vuelo.py`, `src/models/pista.py`,
`src/managers/vuelos_manager.py`, `src/managers/pistas_manager.py`,
`src/managers/simulador.py`).

Python side conventions used throughout:
* Python `int` is embedded as `Int`; `Optional[int]` as `Option Int`.
* Python dicts (`vuelos_activos`, `pistas`) are association lists in
  insertion order; assignment replaces the value in place when the key is
  present and appends otherwise, exactly like a Python dict.
* The deques `cola_aterrizaje` / `cola_despegue` and the list
  `vuelos_completados` hold references to the same `Vuelo` objects as the
  dict, so mutating a flight through the dict is visible through the
  queues.  The embedding stores flight ids in the queues and keeps the
  flight data in the id map, which models that aliasing.
-/

namespace Aviones

/-- Python's `str.upper()` (character-wise uppercase). -/
def mayusculas (s : String) : String := ⟨s.data.map Char.toUpper⟩

/-- Flight record mirroring the attributes of `Vuelo.__init__`. -/
structure Vuelo where
  id_vuelo : String
  tipo : String
  eta : Option Int
  etd : Option Int
  prioridad : Int
  combustible : Option Int
  estado : String
  pista_asignada : Option String
  tiempo_inicio : Option Int
  tiempo_fin : Option Int
deriving DecidableEq, Repr

/-- `Vuelo.__init__`: normalizes the kind to upper case, keeps `eta` and
`combustible` only for ATERRIZAJE and `etd` only for DESPEGUE, and clears
the simulation bookkeeping fields. -/
def Vuelo.inicial (id_vuelo tipo : String) (eta etd : Option Int)
    (prioridad : Int) (combustible : Option Int) (estado : String) : Vuelo :=
  let tipoU := mayusculas tipo
  { id_vuelo := id_vuelo
    tipo := tipoU
    eta := if tipoU = "ATERRIZAJE" then eta else none
    etd := if tipoU = "DESPEGUE" then etd else none
    prioridad := prioridad
    combustible := if tipoU = "ATERRIZAJE" then combustible else none
    estado := estado
    pista_asignada := none
    tiempo_inicio := none
    tiempo_fin := none }

/-- `Vuelo.get_tiempo_previsto`. -/
def Vuelo.get_tiempo_previsto (v : Vuelo) : Option Int :=
  if v.tipo = "ATERRIZAJE" then v.eta else v.etd

/-- `Vuelo.tiene_combustible_critico`: landing with fuel ≤ 5. -/
def Vuelo.tiene_combustible_critico (v : Vuelo) : Bool :=
  if v.tipo ≠ "ATERRIZAJE" then false
  else
    match v.combustible with
    | none => false
    | some c => decide (c ≤ 5)

/-- Runway record mirroring the attributes of `Pista.__init__`. -/
structure Pista where
  id_pista : String
  categoria : String
  tiempo_uso : Int
  habilitada : Int
  libre : Bool
  vuelo_actual : Option String
  tiempo_liberacion : Option Int
  operaciones_totales : Int
deriving DecidableEq, Repr

/-- `Pista.__init__`: a freshly constructed runway is free with no
occupant, no release time and zero lifetime operations. -/
def Pista.inicial (id_pista categoria : String) (tiempo_uso : Int)
    (habilitada : Int) : Pista :=
  { id_pista := id_pista
    categoria := categoria
    tiempo_uso := tiempo_uso
    habilitada := habilitada
    libre := true
    vuelo_actual := none
    tiempo_liberacion := none
    operaciones_totales := 0 }

/-- `Pista.asignar`: occupy the runway for `tiempo_uso` minutes. -/
def Pista.asignar (p : Pista) (id_vuelo : String) (tiempo_actual : Int) : Pista :=
  { p with
    libre := false
    vuelo_actual := some id_vuelo
    tiempo_liberacion := some (tiempo_actual + p.tiempo_uso)
    operaciones_totales := p.operaciones_totales + 1 }

/-- `Pista.liberar`: free the runway, returning the previous occupant. -/
def Pista.liberar (p : Pista) : Pista × Option String :=
  ({ p with libre := true, vuelo_actual := none, tiempo_liberacion := none },
   p.vuelo_actual)

/-- `Pista.esta_disponible`: enabled and (free, or past its release time). -/
def Pista.esta_disponible (p : Pista) (tiempo_actual : Int) : Bool :=
  if p.habilitada = 0 then false
  else if p.libre then true
  else
    match p.tiempo_liberacion with
    | some tl => decide (tiempo_actual ≥ tl)
    | none => false

/-- Lookup in an insertion-ordered association list (first match, like a
Python dict with unique keys). -/
def buscar {β : Type} (m : List (String × β)) (k : String) : Option β :=
  match m with
  | [] => none
  | (k', v) :: rest => if k' = k then some v else buscar rest k

/-- Python dict assignment `m[k] = v`: replace the first entry with key `k`
in place if present, otherwise append at the end. -/
def asignarClave {β : Type} (m : List (String × β)) (k : String) (v : β) :
    List (String × β) :=
  match m with
  | [] => [(k, v)]
  | (k', v') :: rest =>
      if k' = k then (k, v) :: rest else (k', v') :: asignarClave rest k v

/-- Flight manager state (`GestorVuelos.__init__`).  Queues and the
completed list hold flight ids; the flight data lives in
`vuelos_activos`, modelling the Python object aliasing. -/
structure GestorVuelos where
  cola_aterrizaje : List String
  cola_despegue : List String
  vuelos_activos : List (String × Vuelo)
  vuelos_completados : List String
deriving DecidableEq, Repr

def GestorVuelos.inicial : GestorVuelos :=
  { cola_aterrizaje := [], cola_despegue := [], vuelos_activos := [],
    vuelos_completados := [] }

/-- `GestorVuelos.añadir_vuelo` (spelled `anadir_vuelo` here): store in the id map and append to the
queue matching the flight's kind. -/
def GestorVuelos.anadir_vuelo (g : GestorVuelos) (v : Vuelo) : GestorVuelos :=
  let g' := { g with vuelos_activos := asignarClave g.vuelos_activos v.id_vuelo v }
  if v.tipo = "ATERRIZAJE" then
    { g' with cola_aterrizaje := g'.cola_aterrizaje ++ [v.id_vuelo] }
  else
    { g' with cola_despegue := g'.cola_despegue ++ [v.id_vuelo] }

/-- The lateness component of the selection key:
`max(0, tiempo_actual - (get_tiempo_previsto() or 0))`.  Python's
`x or 0` maps `None` (and `0`) to `0`, hence `Option.getD 0`. -/
def atrasoDe (tiempo_actual : Int) (v : Vuelo) : Int :=
  max 0 (tiempo_actual - (v.get_tiempo_previsto).getD 0)

/-- The sort key `clave` from `_obtener_vuelo_prioritario`, as a value of a
lexicographically ordered product: (prioridad, fuel-critical flag,
lateness, id). -/
def clave (tiempo_actual : Int) (v : Vuelo) :
    Lex (Int × Lex (Nat × Lex (Int × String))) :=
  toLex (v.prioridad,
    toLex ((if v.tiene_combustible_critico then 1 else 0 : Nat),
      toLex (atrasoDe tiempo_actual v, v.id_vuelo)))

/-- `_obtener_vuelo_prioritario`: Python sorts a copy of the queue by
`clave` in descending order (a stable sort) and returns the head, i.e. the
first element of the queue whose key is maximal.  The fold below computes
exactly that: the running best is replaced only by a strictly greater key. -/
def GestorVuelos.obtener_vuelo_prioritario (cola : List Vuelo)
    (tiempo_actual : Int) : Option Vuelo :=
  match cola with
  | [] => none
  | v :: vs =>
      some (vs.foldl
        (fun mejor w =>
          if clave tiempo_actual mejor < clave tiempo_actual w then w else mejor)
        v)

/-- Resolve a queue of flight ids to the flight objects it aliases
(`list(cola)` in Python). -/
def GestorVuelos.vuelosDeCola (g : GestorVuelos) (cola : List String) :
    List Vuelo :=
  cola.filterMap (fun id => buscar g.vuelos_activos id)

/-- `GestorVuelos.seleccionar_vuelo_para_pista`: best landing candidate if
any, otherwise best departure candidate. -/
def GestorVuelos.seleccionar_vuelo_para_pista (g : GestorVuelos)
    (tiempo_actual : Int) : Option Vuelo :=
  match GestorVuelos.obtener_vuelo_prioritario
      (g.vuelosDeCola g.cola_aterrizaje) tiempo_actual with
  | some v => some v
  | none =>
      GestorVuelos.obtener_vuelo_prioritario
        (g.vuelosDeCola g.cola_despegue) tiempo_actual

/-- `GestorVuelos.asignar_vuelo`: mark ASIGNADO, record the start tick and
remove the flight from both queues (`deque.remove` removes the first
occurrence; absent ids are left alone). -/
def GestorVuelos.asignar_vuelo (g : GestorVuelos) (id_vuelo : String)
    (tiempo_actual : Int) : GestorVuelos :=
  match buscar g.vuelos_activos id_vuelo with
  | none => g
  | some v =>
      let v' := { v with estado := "ASIGNADO", tiempo_inicio := some tiempo_actual }
      { g with
        vuelos_activos := asignarClave g.vuelos_activos id_vuelo v'
        cola_aterrizaje := g.cola_aterrizaje.erase id_vuelo
        cola_despegue := g.cola_despegue.erase id_vuelo }

/-- `GestorVuelos.completar_vuelo`: mark COMPLETADO, record the end tick and
append to the completed list unless already present. -/
def GestorVuelos.completar_vuelo (g : GestorVuelos) (id_vuelo : String)
    (tiempo_actual : Int) : GestorVuelos :=
  match buscar g.vuelos_activos id_vuelo with
  | none => g
  | some v =>
      let v' := { v with estado := "COMPLETADO", tiempo_fin := some tiempo_actual }
      { g with
        vuelos_activos := asignarClave g.vuelos_activos id_vuelo v'
        vuelos_completados :=
          if id_vuelo ∈ g.vuelos_completados then g.vuelos_completados
          else g.vuelos_completados ++ [id_vuelo] }

/-- `GestorVuelos.contar_vuelos_por_estado` as a record
{en_cola, en_operacion, completados, total}. -/
structure ConteoVuelos where
  en_cola : Nat
  en_operacion : Nat
  completados : Nat
  total : Nat
deriving DecidableEq, Repr

def GestorVuelos.contar_vuelos_por_estado (g : GestorVuelos) : ConteoVuelos :=
  { en_cola := g.cola_aterrizaje.length + g.cola_despegue.length
    en_operacion :=
      (g.vuelos_activos.filter (fun kv => kv.2.estado = "ASIGNADO")).length
    completados := g.vuelos_completados.length
    total := g.vuelos_activos.length }

/-- Runway manager state (`GestorPistas.__init__`): dict id → Pista. -/
structure GestorPistas where
  pistas : List (String × Pista)
deriving DecidableEq, Repr

def GestorPistas.inicial : GestorPistas := { pistas := [] }

/-- `GestorPistas.añadir_pista` (spelled `anadir_pista` here). -/
def GestorPistas.anadir_pista (g : GestorPistas) (p : Pista) : GestorPistas :=
  { pistas := asignarClave g.pistas p.id_pista p }

/-- `GestorPistas.obtener_pistas_libres`: all runways available now, in
dict insertion order. -/
def GestorPistas.obtener_pistas_libres (g : GestorPistas)
    (tiempo_actual : Int) : List Pista :=
  (g.pistas.map Prod.snd).filter (fun p => p.esta_disponible tiempo_actual)

/-- The release condition of `GestorPistas.actualizar_pistas`: occupied
and past (or at) its release time. -/
def Pista.vencida (p : Pista) (tiempo_actual : Int) : Bool :=
  (!p.libre) && (match p.tiempo_liberacion with
    | some tl => decide (tl ≤ tiempo_actual)
    | none => false)

/-- One entry of the `actualizar_pistas` loop: free the runway when due. -/
def liberarSiVence (tiempo_actual : Int) (kp : String × Pista) :
    String × Pista :=
  if kp.2.vencida tiempo_actual then (kp.1, kp.2.liberar.1) else kp

/-- `GestorPistas.actualizar_pistas`: free every occupied runway whose
release time is due and collect, in iteration order, the occupant ids of
the freed ones (a Python-falsy occupant — `None` or `""` — is not
collected). -/
def GestorPistas.actualizar_pistas (g : GestorPistas) (tiempo_actual : Int) :
    GestorPistas × List String :=
  ({ pistas := g.pistas.map (liberarSiVence tiempo_actual) },
   g.pistas.filterMap (fun kp =>
     if kp.2.vencida tiempo_actual then
       match kp.2.liberar.2 with
       | some id => if id = "" then none else some id
       | none => none
     else none))

/-- Simulation controller state (`ControladorSimulacion`); the log manager
only writes to files and is not part of the state. -/
structure Simulacion where
  tiempo_actual : Int
  gestor_vuelos : GestorVuelos
  gestor_pistas : GestorPistas
  en_simulacion : Bool
deriving DecidableEq, Repr

/-- `ControladorSimulacion.__init__`. -/
def Simulacion.nueva : Simulacion :=
  { tiempo_actual := 0
    gestor_vuelos := GestorVuelos.inicial
    gestor_pistas := GestorPistas.inicial
    en_simulacion := false }

/-- `ControladorSimulacion.inicializar_sistema`: register the runways, then
the flights, and switch to running. -/
def Simulacion.inicializar_sistema (s : Simulacion) (vuelos : List Vuelo)
    (pistas : List Pista) : Simulacion :=
  { s with
    gestor_pistas := pistas.foldl GestorPistas.anadir_pista s.gestor_pistas
    gestor_vuelos := vuelos.foldl GestorVuelos.anadir_vuelo s.gestor_vuelos
    en_simulacion := true }

/-- `_actualizar_emergencias` applied to one flight: a landing with
critical fuel and priority < 2 is raised to priority 2. -/
def escalarVuelo (v : Vuelo) : Vuelo :=
  if v.tipo ≠ "ATERRIZAJE" then v
  else if v.tiene_combustible_critico ∧ v.prioridad < 2 then
    { v with prioridad := 2 }
  else v

/-- `ControladorSimulacion._actualizar_emergencias`: scan every flight in
`vuelos_activos` (the lifecycle state is not inspected). -/
def Simulacion.actualizar_emergencias (g : GestorVuelos) : GestorVuelos :=
  { g with vuelos_activos :=
      g.vuelos_activos.map (fun kv => (kv.1, escalarVuelo kv.2)) }

/-- `asignar_vuelo_a_pista` also writes `vuelo.pista_asignada` on the
flight object, i.e. through the id map. -/
def marcarPistaAsignada (g : GestorVuelos) (idVuelo idPista : String) :
    GestorVuelos :=
  match buscar g.vuelos_activos idVuelo with
  | none => g
  | some v =>
      let v' := { v with pista_asignada := some idPista }
      { g with vuelos_activos := asignarClave g.vuelos_activos idVuelo v' }

/-- Body of the loop in `_asignar_vuelos_a_pistas`: walk the snapshot of
free runway ids; at each one select the top candidate, occupy the runway
and mark the flight assigned; stop at the first empty selection. -/
def asignarBucle (tiempo_actual : Int) :
    List String → GestorVuelos → GestorPistas → GestorVuelos × GestorPistas
  | [], gv, gp => (gv, gp)
  | idPista :: resto, gv, gp =>
      match gv.seleccionar_vuelo_para_pista tiempo_actual with
      | none => (gv, gp)
      | some v =>
          match buscar gp.pistas idPista with
          | none => asignarBucle tiempo_actual resto gv gp
          | some p =>
              let gp' : GestorPistas :=
                { pistas := asignarClave gp.pistas idPista
                    (p.asignar v.id_vuelo tiempo_actual) }
              let gv' := (marcarPistaAsignada gv v.id_vuelo idPista).asignar_vuelo
                v.id_vuelo tiempo_actual
              asignarBucle tiempo_actual resto gv' gp'

/-- `ControladorSimulacion._asignar_vuelos_a_pistas`: snapshot the free
runways, then run the assignment loop over them. -/
def Simulacion.asignar_vuelos_a_pistas (gv : GestorVuelos) (gp : GestorPistas)
    (tiempo_actual : Int) : GestorVuelos × GestorPistas :=
  asignarBucle tiempo_actual
    ((gp.obtener_pistas_libres tiempo_actual).map Pista.id_pista) gv gp

/-- `_consumir_combustible_en_cola` applied to one flight: a queued landing
with positive fuel burns one minute of fuel. -/
def consumirVuelo (v : Vuelo) : Vuelo :=
  if v.tipo = "ATERRIZAJE" ∧ v.estado = "EN_COLA" then
    match v.combustible with
    | some c => if c > 0 then { v with combustible := some (c - 1) } else v
    | none => v
  else v

/-- `ControladorSimulacion._consumir_combustible_en_cola`. -/
def Simulacion.consumir_combustible_en_cola (g : GestorVuelos) : GestorVuelos :=
  { g with vuelos_activos :=
      g.vuelos_activos.map (fun kv => (kv.1, consumirVuelo kv.2)) }

/-- `ControladorSimulacion.avanzar_minuto`: release due runways and
complete their occupants, escalate emergencies, assign flights to free
runways, burn queued fuel, then advance the clock; returns `false` and
leaves the state untouched when the simulation is not running. -/
def Simulacion.avanzar_minuto (s : Simulacion) : Simulacion × Bool :=
  if ¬ s.en_simulacion then (s, false)
  else
    let r := s.gestor_pistas.actualizar_pistas s.tiempo_actual
    let gv := r.2.foldl
      (fun g id => g.completar_vuelo id s.tiempo_actual) s.gestor_vuelos
    let gv := Simulacion.actualizar_emergencias gv
    let ab := Simulacion.asignar_vuelos_a_pistas gv r.1 s.tiempo_actual
    let gv := Simulacion.consumir_combustible_en_cola ab.1
    ({ s with
        tiempo_actual := s.tiempo_actual + 1
        gestor_vuelos := gv
        gestor_pistas := ab.2 }, true)

/-- `ControladorSimulacion.avanzar_n_minutos`: call `avanzar_minuto` up to
`n` times, stopping at the first failure. -/
def Simulacion.avanzar_n_minutos (n : Nat) (s : Simulacion) : Simulacion :=
  match n with
  | 0 => s
  | n + 1 =>
      let r := s.avanzar_minuto
      if r.2 then Simulacion.avanzar_n_minutos n r.1 else r.1

/-! ### Association-list lemmas -/

theorem buscar_asignarClave {β : Type} (m : List (String × β)) (k k' : String)
    (v : β) :
    buscar (asignarClave m k v) k' = if k = k' then some v else buscar m k' := by
  induction m with
  | nil =>
      by_cases h : k = k' <;> simp [asignarClave, buscar, h]
  | cons kv rest ih =>
      obtain ⟨j, w⟩ := kv
      by_cases hj : j = k
      · subst hj
        by_cases h : j = k' <;> simp [asignarClave, buscar, h]
      · by_cases h : j = k'
        · subst h
          have hk : ¬ k = j := fun hh => hj hh.symm
          simp [asignarClave, buscar, hj, hk]
        · simp [asignarClave, buscar, hj, h, ih]

theorem buscar_mapVal {β γ : Type} (m : List (String × β)) (f : β → γ)
    (k : String) :
    buscar (m.map (fun kv => (kv.1, f kv.2))) k = (buscar m k).map f := by
  induction m with
  | nil => simp [buscar]
  | cons kv rest ih =>
      by_cases h : kv.1 = k <;> simp [buscar, h, ih]

theorem buscar_mem {β : Type} {m : List (String × β)} {k : String} {v : β}
    (h : buscar m k = some v) : (k, v) ∈ m := by
  induction m with
  | nil => simp [buscar] at h
  | cons kv rest ih =>
      obtain ⟨a, b⟩ := kv
      by_cases hk : a = k
      · subst hk
        simp [buscar] at h
        subst h
        exact List.mem_cons_self _ _
      · simp [buscar, hk] at h
        exact List.mem_cons_of_mem _ (ih h)

theorem mem_asignarClave {β : Type} {m : List (String × β)} {k : String}
    {v : β} {kv : String × β} (h : kv ∈ asignarClave m k v) :
    kv ∈ m ∨ kv = (k, v) := by
  induction m with
  | nil => simp [asignarClave] at h; simp [h]
  | cons kw rest ih =>
      by_cases hk : kw.1 = k
      · rw [asignarClave] at h
        obtain ⟨a, b⟩ := kw
        simp only at hk
        rw [if_pos hk] at h
        rcases List.mem_cons.1 h with h1 | h1
        · right; exact h1
        · left; exact List.mem_cons_of_mem _ h1
      · rw [asignarClave] at h
        obtain ⟨a, b⟩ := kw
        simp only at hk
        rw [if_neg hk] at h
        rcases List.mem_cons.1 h with h1 | h1
        · left; simp [h1]
        · rcases ih h1 with h2 | h2
          · left; exact List.mem_cons_of_mem _ h2
          · right; exact h2

/-! ### Scenario A (one runway of hold 2, one landing request) -/

def vueloEscenarioA : Vuelo :=
  Vuelo.inicial "IB1" "ATERRIZAJE" (some 0) none 0 (some 10) "EN_COLA"

def pistaEscenarioA : Pista := Pista.inicial "R1" "corta" 2 1

def escenarioA0 : Simulacion :=
  Simulacion.nueva.inicializar_sistema [vueloEscenarioA] [pistaEscenarioA]

def escenarioA1 : Simulacion := escenarioA0.avanzar_minuto.1

def escenarioA2 : Simulacion := escenarioA1.avanzar_minuto.1

def escenarioA3 : Simulacion := escenarioA2.avanzar_minuto.1

/-- C4: with one enabled runway of hold 2 and one ARRIVAL request
(scheduled 0, urgency 10, priority 0) starting at clock 0, the first tick
assigns the request at start tick 0 and occupies the runway until tick 2,
the second tick changes neither the flight ledger nor the runway pool, and
the third tick (run at clock 2) frees the runway and completes the request
with start tick 0 and end tick 2. -/
theorem escenarioA_ejecucion :
    escenarioA0.tiempo_actual = 0
  ∧ (buscar escenarioA1.gestor_vuelos.vuelos_activos "IB1").map
      (fun v => (v.estado, v.tiempo_inicio)) = some ("ASIGNADO", some 0)
  ∧ (buscar escenarioA1.gestor_pistas.pistas "R1").map
      (fun p => (p.libre, p.vuelo_actual, p.tiempo_liberacion)) =
      some (false, some "IB1", some 2)
  ∧ escenarioA2.gestor_vuelos = escenarioA1.gestor_vuelos
  ∧ escenarioA2.gestor_pistas = escenarioA1.gestor_pistas
  ∧ escenarioA2.tiempo_actual = 2
  ∧ (buscar escenarioA3.gestor_pistas.pistas "R1").map
      (fun p => (p.libre, p.vuelo_actual)) = some (true, none)
  ∧ (buscar escenarioA3.gestor_vuelos.vuelos_activos "IB1").map
      (fun v => (v.estado, v.tiempo_inicio, v.tiempo_fin)) =
      some ("COMPLETADO", some 0, some 2)
  ∧ escenarioA3.gestor_vuelos.vuelos_completados = ["IB1"] := by
  decide

/-! ### The clock (C5) -/

theorem avanzar_minuto_parado {s : Simulacion} (h : s.en_simulacion = false) :
    s.avanzar_minuto = (s, false) := by
  rw [Simulacion.avanzar_minuto, if_pos (by simp [h])]

theorem avanzar_minuto_corriendo {s : Simulacion} (h : s.en_simulacion = true) :
    s.avanzar_minuto.2 = true ∧
      s.avanzar_minuto.1.tiempo_actual = s.tiempo_actual + 1 := by
  rw [Simulacion.avanzar_minuto, if_neg (by simp [h])]
  exact ⟨rfl, rfl⟩

theorem avanzar_n_minutos_mono (n : Nat) (s : Simulacion) :
    s.tiempo_actual ≤ (Simulacion.avanzar_n_minutos n s).tiempo_actual := by
  induction n generalizing s with
  | zero => exact le_refl _
  | succ n ih =>
      rw [Simulacion.avanzar_n_minutos]
      by_cases h : s.en_simulacion = true
      · have hr := avanzar_minuto_corriendo h
        rw [hr.1]
        simp only [if_true]
        calc s.tiempo_actual ≤ s.tiempo_actual + 1 := by omega
          _ = s.avanzar_minuto.1.tiempo_actual := hr.2.symm
          _ ≤ _ := ih _
      · have hf : s.en_simulacion = false := by
          cases hb : s.en_simulacion
          · rfl
          · exact absurd hb h
        rw [avanzar_minuto_parado hf]
        simp

/-- C5: a tick on a running simulation succeeds and advances the clock by
exactly 1; a tick on a stopped simulation reports failure and leaves the
whole state (clock, flight ledger, runway pool) unchanged; consequently
the clock never decreases over any sequence of ticks. -/
theorem avanzar_minuto_reloj (s : Simulacion) :
    (s.en_simulacion = false → s.avanzar_minuto = (s, false))
  ∧ (s.en_simulacion = true →
      s.avanzar_minuto.2 = true ∧
        s.avanzar_minuto.1.tiempo_actual = s.tiempo_actual + 1)
  ∧ (∀ n : Nat,
      s.tiempo_actual ≤ (Simulacion.avanzar_n_minutos n s).tiempo_actual) :=
  ⟨fun h => avanzar_minuto_parado h,
   fun h => avanzar_minuto_corriendo h,
   fun n => avanzar_n_minutos_mono n s⟩

/-- Witness for C5: the freshly constructed (not yet running) controller
fails to tick and stays put; the running Scenario A state ticks from
clock 0 to clock 1. -/
theorem avanzar_minuto_reloj_aplicado :
    Simulacion.nueva.avanzar_minuto = (Simulacion.nueva, false)
  ∧ escenarioA0.avanzar_minuto.2 = true
  ∧ escenarioA0.avanzar_minuto.1.tiempo_actual = escenarioA0.tiempo_actual + 1 :=
  ⟨(avanzar_minuto_reloj Simulacion.nueva).1 rfl,
   ((avanzar_minuto_reloj escenarioA0).2.1 rfl).1,
   ((avanzar_minuto_reloj escenarioA0).2.1 rfl).2⟩

/-! ### Fuel decay (C8) -/

theorem consumirVuelo_combustible (v : Vuelo) :
    (consumirVuelo v).combustible =
      if v.tipo = "ATERRIZAJE" ∧ v.estado = "EN_COLA" then
        (match v.combustible with
         | some c => if c > 0 then some (c - 1) else some c
         | none => none)
      else v.combustible := by
  unfold consumirVuelo
  by_cases h : v.tipo = "ATERRIZAJE" ∧ v.estado = "EN_COLA"
  · rw [if_pos h, if_pos h]
    cases hv : v.combustible with
    | none => exact hv
    | some c =>
        by_cases hc : c > 0
        · simp [hc]
        · simp [hc, hv]
  · rw [if_neg h, if_neg h]

theorem consumirVuelo_id_de_no_cola (v : Vuelo)
    (h : v.tipo ≠ "ATERRIZAJE" ∨ v.estado ≠ "EN_COLA") : consumirVuelo v = v := by
  unfold consumirVuelo
  rw [if_neg]
  rcases h with h | h <;> exact fun hc => h (by simp [hc.1, hc.2])

theorem consumirVuelo_no_negativo (v : Vuelo)
    (h0 : ∀ c0, v.combustible = some c0 → 0 ≤ c0) :
    ∀ c, (consumirVuelo v).combustible = some c → 0 ≤ c := by
  intro c h
  rw [consumirVuelo_combustible] at h
  by_cases hb : v.tipo = "ATERRIZAJE" ∧ v.estado = "EN_COLA"
  · rw [if_pos hb] at h
    cases hv : v.combustible with
    | none => rw [hv] at h; simp at h
    | some c0 =>
        rw [hv] at h
        have := h0 c0 hv
        by_cases hc : c0 > 0
        · simp [hc] at h; omega
        · simp [hc] at h; omega
  · rw [if_neg hb] at h
    exact h0 c h

theorem consumirVuelo_iterado_no_negativo (n : Nat) (v : Vuelo)
    (h0 : ∀ c0, v.combustible = some c0 → 0 ≤ c0) :
    ∀ c, (consumirVuelo^[n] v).combustible = some c → 0 ≤ c := by
  induction n generalizing v with
  | zero => exact h0
  | succ n ih =>
      rw [Function.iterate_succ_apply]
      exact ih _ (consumirVuelo_no_negativo v h0)

theorem buscar_consumir_iterado (n : Nat) (g : GestorVuelos) (id : String)
    (v : Vuelo) (h : buscar g.vuelos_activos id = some v) :
    buscar (Simulacion.consumir_combustible_en_cola^[n] g).vuelos_activos id =
      some (consumirVuelo^[n] v) := by
  induction n generalizing g v with
  | zero => exact h
  | succ n ih =>
      rw [Function.iterate_succ_apply, Function.iterate_succ_apply]
      refine ih _ _ ?_
      rw [Simulacion.consumir_combustible_en_cola]
      show buscar (g.vuelos_activos.map (fun kv => (kv.1, consumirVuelo kv.2))) id
        = some (consumirVuelo v)
      rw [buscar_mapVal, h]
      rfl

/-- C8: the decay step decrements the fuel counter by exactly 1 for every
queued (EN_COLA) landing with positive fuel, leaves a zero or absent
counter and every departure or non-queued flight unchanged, and iterating
the step any number of times never drives a non-negative counter below
zero. -/
theorem consumo_combustible_spec (g : GestorVuelos) (id : String) (v : Vuelo)
    (h : buscar g.vuelos_activos id = some v) :
    buscar (Simulacion.consumir_combustible_en_cola g).vuelos_activos id =
      some (consumirVuelo v)
  ∧ (∀ c, v.tipo = "ATERRIZAJE" → v.estado = "EN_COLA" → v.combustible = some c →
      0 < c → (consumirVuelo v).combustible = some (c - 1))
  ∧ (v.combustible = some 0 → (consumirVuelo v).combustible = some 0)
  ∧ (v.combustible = none → consumirVuelo v = v)
  ∧ (v.tipo ≠ "ATERRIZAJE" ∨ v.estado ≠ "EN_COLA" → consumirVuelo v = v)
  ∧ (∀ n : Nat,
      buscar (Simulacion.consumir_combustible_en_cola^[n] g).vuelos_activos id =
        some (consumirVuelo^[n] v))
  ∧ (∀ n c, (∀ c0, v.combustible = some c0 → 0 ≤ c0) →
      (consumirVuelo^[n] v).combustible = some c → 0 ≤ c) := by
  refine ⟨?_, ?_, ?_, ?_, ?_, ?_, ?_⟩
  · exact buscar_consumir_iterado 1 g id v h
  · intro c h1 h2 h3 h4
    rw [consumirVuelo_combustible, if_pos ⟨h1, h2⟩, h3]
    simp [h4]
  · intro hc
    rw [consumirVuelo_combustible]
    by_cases hb : v.tipo = "ATERRIZAJE" ∧ v.estado = "EN_COLA"
    · rw [if_pos hb, hc]; simp
    · rw [if_neg hb]; exact hc
  · intro hc
    unfold consumirVuelo
    by_cases hb : v.tipo = "ATERRIZAJE" ∧ v.estado = "EN_COLA"
    · rw [if_pos hb, hc]
    · rw [if_neg hb]
  · exact consumirVuelo_id_de_no_cola v
  · exact fun n => buscar_consumir_iterado n g id v h
  · exact fun n c h0 hc => consumirVuelo_iterado_no_negativo n v h0 c hc

/-- Witness for C8: in a ledger holding the Scenario A flight (queued
landing with 10 minutes of fuel), one decay step leaves it with 9. -/
theorem consumo_combustible_spec_aplicado :
    (consumirVuelo vueloEscenarioA).combustible = some 9 := by
  simpa using
    (consumo_combustible_spec (GestorVuelos.inicial.anadir_vuelo vueloEscenarioA)
      "IB1" vueloEscenarioA (by decide)).2.1 10 (by decide) (by decide)
      (by decide) (by decide)

/-! ### Priority escalation (C1) -/

/-- A fuel-critical landing loaded in the ASIGNADO state (the CSV loader
accepts any `estado` value) reaching the Escalate step. -/
def vueloCargadoAsignado : Vuelo :=
  Vuelo.inicial "X1" "ATERRIZAJE" (some 0) none 0 (some 3) "ASIGNADO"

def simCargadoAsignado : Simulacion :=
  Simulacion.nueva.inicializar_sistema [vueloCargadoAsignado] []

/-- Counterexample to C1: the Escalate step raises the priority of a
fuel-critical landing that is NOT in the WAITING (EN_COLA) state — the
code never inspects the lifecycle state.  Shown both on the step alone and
through a full tick of an initialized system. -/
theorem escalado_no_mira_estado_contraejemplo :
    vueloCargadoAsignado.estado = "ASIGNADO"
  ∧ vueloCargadoAsignado.estado ≠ "EN_COLA"
  ∧ vueloCargadoAsignado.prioridad = 0
  ∧ vueloCargadoAsignado.tiene_combustible_critico = true
  ∧ (buscar (Simulacion.actualizar_emergencias
        simCargadoAsignado.gestor_vuelos).vuelos_activos "X1").map
      Vuelo.prioridad = some 2
  ∧ (buscar simCargadoAsignado.avanzar_minuto.1.gestor_vuelos.vuelos_activos
        "X1").map (fun v => (v.prioridad, v.estado)) =
      some (2, "ASIGNADO") := by
  decide

/-- C1 (amended): during the Escalate step a flight's priority is set to 2
exactly when it is a landing (ARRIVAL) with priority < 2 and critical fuel
(counter ≤ 5), regardless of its lifecycle state; departures and flights
already at priority ≥ 2 are never touched, and the step changes no other
field. -/
theorem escalado_emergencias_spec (g : GestorVuelos) (id : String) (v : Vuelo)
    (h : buscar g.vuelos_activos id = some v) :
    buscar (Simulacion.actualizar_emergencias g).vuelos_activos id =
      some (escalarVuelo v)
  ∧ ((escalarVuelo v).prioridad =
      if v.tipo = "ATERRIZAJE" ∧ v.tiene_combustible_critico = true ∧
          v.prioridad < 2 then 2 else v.prioridad)
  ∧ (v.tipo ≠ "ATERRIZAJE" → escalarVuelo v = v)
  ∧ (2 ≤ v.prioridad → escalarVuelo v = v)
  ∧ (escalarVuelo v).tipo = v.tipo
  ∧ (escalarVuelo v).estado = v.estado
  ∧ (escalarVuelo v).combustible = v.combustible
  ∧ (escalarVuelo v).id_vuelo = v.id_vuelo := by
  have hmap : buscar (Simulacion.actualizar_emergencias g).vuelos_activos id =
      some (escalarVuelo v) := by
    rw [Simulacion.actualizar_emergencias]
    show buscar (g.vuelos_activos.map (fun kv => (kv.1, escalarVuelo kv.2))) id
      = some (escalarVuelo v)
    rw [buscar_mapVal, h]
    rfl
  refine ⟨hmap, ?_, ?_, ?_, ?_, ?_, ?_, ?_⟩
  · by_cases ht : v.tipo = "ATERRIZAJE"
    · by_cases hc : v.tiene_combustible_critico = true ∧ v.prioridad < 2
      · have he : escalarVuelo v = { v with prioridad := 2 } := by
          unfold escalarVuelo
          rw [if_neg (by simp [ht]), if_pos ⟨hc.1, hc.2⟩]
        rw [he, if_pos ⟨ht, hc.1, hc.2⟩]
      · have he : escalarVuelo v = v := by
          unfold escalarVuelo
          rw [if_neg (by simp [ht]), if_neg (by simpa using hc)]
        rw [he, if_neg (by intro hx; exact hc ⟨hx.2.1, hx.2.2⟩)]
    · have he : escalarVuelo v = v := by
        unfold escalarVuelo
        rw [if_pos (by simpa using ht)]
      rw [he, if_neg (by intro hx; exact ht hx.1)]
  · intro ht
    unfold escalarVuelo
    rw [if_pos ht]
  · intro hp
    unfold escalarVuelo
    by_cases ht : v.tipo ≠ "ATERRIZAJE"
    · rw [if_pos ht]
    · rw [if_neg ht, if_neg (by intro hx; omega)]
  all_goals
    unfold escalarVuelo
    by_cases ht : v.tipo ≠ "ATERRIZAJE"
    · rw [if_pos ht]
    · rw [if_neg ht]
      by_cases hc : v.tiene_combustible_critico = true ∧ v.prioridad < 2
      · rw [if_pos hc]
      · rw [if_neg hc]

/-- Witness for C1 (amended): the Escalate step raises the loaded
fuel-critical landing of the counterexample state to priority 2. -/
theorem escalado_emergencias_spec_aplicado :
    (escalarVuelo vueloCargadoAsignado).prioridad =
      if vueloCargadoAsignado.tipo = "ATERRIZAJE" ∧
          vueloCargadoAsignado.tiene_combustible_critico = true ∧
          vueloCargadoAsignado.prioridad < 2 then 2
      else vueloCargadoAsignado.prioridad :=
  (escalado_emergencias_spec simCargadoAsignado.gestor_vuelos "X1"
    vueloCargadoAsignado (by decide)).2.1

/-! ### Duplicate completion (C2) -/

def gestorUnVuelo : GestorVuelos := GestorVuelos.inicial.anadir_vuelo vueloEscenarioA

/-- Counterexample to C2: completing flight IB1 at tick 2 and again at
tick 5 does not duplicate the completed list, but the second call
overwrites the recorded end tick (2 becomes 5). -/
theorem completar_reescribe_fin_contraejemplo :
    (buscar (gestorUnVuelo.completar_vuelo "IB1" 2).vuelos_activos "IB1").map
      Vuelo.tiempo_fin = some (some 2)
  ∧ (buscar ((gestorUnVuelo.completar_vuelo "IB1" 2).completar_vuelo "IB1"
        5).vuelos_activos "IB1").map Vuelo.tiempo_fin = some (some 5)
  ∧ ((gestorUnVuelo.completar_vuelo "IB1" 2).completar_vuelo "IB1"
      5).vuelos_completados = ["IB1"] := by
  decide

theorem completar_vuelo_buscar (g : GestorVuelos) (id : String) (t : Int)
    (v : Vuelo) (h : buscar g.vuelos_activos id = some v) :
    buscar (g.completar_vuelo id t).vuelos_activos id =
      some { v with estado := "COMPLETADO", tiempo_fin := some t }
  ∧ id ∈ (g.completar_vuelo id t).vuelos_completados
  ∧ (g.completar_vuelo id t).vuelos_completados =
      (if id ∈ g.vuelos_completados then g.vuelos_completados
       else g.vuelos_completados ++ [id]) := by
  unfold GestorVuelos.completar_vuelo
  rw [h]
  refine ⟨?_, ?_, rfl⟩
  · show buscar (asignarClave g.vuelos_activos id _) id = _
    rw [buscar_asignarClave, if_pos rfl]
  · by_cases hm : id ∈ g.vuelos_completados
    · show id ∈ (if id ∈ g.vuelos_completados then g.vuelos_completados
        else g.vuelos_completados ++ [id])
      rw [if_pos hm]
      exact hm
    · show id ∈ (if id ∈ g.vuelos_completados then g.vuelos_completados
        else g.vuelos_completados ++ [id])
      rw [if_neg hm]
      simp

/-- C2 (amended): a second `completar_vuelo` call for the same id does not
add a second entry to the completed collection and leaves the recorded
start tick unchanged, but it overwrites the recorded end tick with the
tick of the second call (the end tick is only unchanged when both calls
pass the same tick). -/
theorem completar_dos_veces_spec (g : GestorVuelos) (id : String)
    (t1 t2 : Int) (v : Vuelo) (h : buscar g.vuelos_activos id = some v) :
    ((g.completar_vuelo id t1).completar_vuelo id t2).vuelos_completados =
      (g.completar_vuelo id t1).vuelos_completados
  ∧ (buscar ((g.completar_vuelo id t1).completar_vuelo id t2).vuelos_activos
        id).map Vuelo.tiempo_inicio =
      (buscar (g.completar_vuelo id t1).vuelos_activos id).map Vuelo.tiempo_inicio
  ∧ (buscar (g.completar_vuelo id t1).vuelos_activos id).map Vuelo.tiempo_fin =
      some (some t1)
  ∧ (buscar ((g.completar_vuelo id t1).completar_vuelo id t2).vuelos_activos
        id).map Vuelo.tiempo_fin = some (some t2) := by
  obtain ⟨h1, h1mem, -⟩ := completar_vuelo_buscar g id t1 v h
  obtain ⟨h2, -, h2comp⟩ := completar_vuelo_buscar (g.completar_vuelo id t1) id t2 _ h1
  refine ⟨?_, ?_, ?_, ?_⟩
  · rw [h2comp, if_pos h1mem]
  · rw [h1, h2]
    rfl
  · rw [h1]
    rfl
  · rw [h2]
    rfl

/-- Witness for C2 (amended): concrete ticks 2 and 5 on flight IB1. -/
theorem completar_dos_veces_spec_aplicado :
    ((gestorUnVuelo.completar_vuelo "IB1" 2).completar_vuelo "IB1"
        5).vuelos_completados =
      (gestorUnVuelo.completar_vuelo "IB1" 2).vuelos_completados
  ∧ (buscar ((gestorUnVuelo.completar_vuelo "IB1" 2).completar_vuelo "IB1"
        5).vuelos_activos "IB1").map Vuelo.tiempo_fin = some (some 5) :=
  ⟨(completar_dos_veces_spec gestorUnVuelo "IB1" 2 5 vueloEscenarioA
      (by decide)).1,
   (completar_dos_veces_spec gestorUnVuelo "IB1" 2 5 vueloEscenarioA
      (by decide)).2.2.2⟩

/-! ### Lateness of flights without a scheduled time (C10) -/

def vueloSinEta : Vuelo :=
  Vuelo.inicial "NOETA" "ATERRIZAJE" none none 0 (some 10) "EN_COLA"

/-- C10: the selection key evaluates an unset scheduled time as 0, so such
a flight's lateness equals the full current tick — the maximal lateness
among flights with a non-negative scheduled time — and the flight is never
excluded from selection. -/
theorem atraso_sin_tiempo_previsto (t : Int) (v : Vuelo) (ht : 0 ≤ t)
    (hv : v.get_tiempo_previsto = none) :
    atrasoDe t v = t
  ∧ (∀ w p, w.get_tiempo_previsto = some p → 0 ≤ p →
      atrasoDe t w ≤ atrasoDe t v)
  ∧ (∀ cola, v ∈ cola →
      GestorVuelos.obtener_vuelo_prioritario cola t ≠ none) := by
  have hvv : atrasoDe t v = t := by
    rw [atrasoDe, hv]
    show max 0 (t - 0) = t
    rw [sub_zero]
    exact max_eq_right ht
  refine ⟨hvv, ?_, ?_⟩
  · intro w p hw hp
    rw [hvv, atrasoDe, hw, Option.getD_some]
    exact max_le ht (by omega)
  · intro cola hmem
    cases cola with
    | nil => cases hmem
    | cons b vs => simp [GestorVuelos.obtener_vuelo_prioritario]

/-- Witness for C10: at tick 7 the landing without an ETA has lateness 7,
at least the lateness of the ETA-0 Scenario A flight. -/
theorem atraso_sin_tiempo_previsto_aplicado :
    atrasoDe 7 vueloSinEta = 7
  ∧ atrasoDe 7 vueloEscenarioA ≤ atrasoDe 7 vueloSinEta :=
  ⟨(atraso_sin_tiempo_previsto 7 vueloSinEta (by decide) (by decide)).1,
   (atraso_sin_tiempo_previsto 7 vueloSinEta (by decide) (by decide)).2.1
     vueloEscenarioA 0 (by decide) (by decide)⟩

/-! ### Candidate selection (C3) -/

theorem fold_mejor_max (t : Int) (l : List Vuelo) (b : Vuelo) :
    (l.foldl (fun mejor w => if clave t mejor < clave t w then w else mejor) b)
        ∈ b :: l
  ∧ clave t b ≤ clave t
      (l.foldl (fun mejor w => if clave t mejor < clave t w then w else mejor) b)
  ∧ ∀ w ∈ l, clave t w ≤ clave t
      (l.foldl (fun mejor w => if clave t mejor < clave t w then w else mejor) b) := by
  induction l generalizing b with
  | nil => exact ⟨List.mem_cons_self b [], le_refl _, by simp⟩
  | cons w ws ih =>
      simp only [List.foldl_cons]
      obtain ⟨hmem, hle, hall⟩ :=
        ih (if clave t b < clave t w then w else b)
      have hbb : clave t b ≤
          clave t (if clave t b < clave t w then w else b) := by
        split
        · exact le_of_lt (by assumption)
        · exact le_refl _
      have hwb : clave t w ≤
          clave t (if clave t b < clave t w then w else b) := by
        split
        · exact le_refl _
        · exact le_of_not_lt (by assumption)
      refine ⟨?_, le_trans hbb hle, ?_⟩
      · rcases List.mem_cons.1 hmem with h | h
        · rw [h]
          split
          · exact List.mem_cons_of_mem _ (List.mem_cons_self _ _)
          · exact List.mem_cons_self _ _
        · exact List.mem_cons_of_mem _ (List.mem_cons_of_mem _ h)
      · intro x hx
        rcases List.mem_cons.1 hx with h | h
        · rw [h]
          exact le_trans hwb hle
        · exact hall x h

theorem obtener_vuelo_prioritario_max (cola : List Vuelo) (t : Int)
    (h : cola ≠ []) :
    ∃ v, GestorVuelos.obtener_vuelo_prioritario cola t = some v ∧ v ∈ cola ∧
      ∀ w ∈ cola, clave t w ≤ clave t v := by
  cases cola with
  | nil => exact absurd rfl h
  | cons b vs =>
      obtain ⟨hmem, hle, hall⟩ := fold_mejor_max t vs b
      refine ⟨_, rfl, hmem, ?_⟩
      intro w hw
      rcases List.mem_cons.1 hw with h1 | h1
      · rw [h1]; exact hle
      · exact hall w h1

/-- C3: selection returns the best flight of the landing queue when that
queue is non-empty, otherwise the best flight of the departure queue, and
nothing when both are empty; within one queue the returned flight
maximizes the lexicographic key (priority, fuel-critical flag, lateness,
id) — all components descending, the id compared lexically. -/
theorem seleccionar_vuelo_spec (g : GestorVuelos) (t : Int) :
    (g.vuelosDeCola g.cola_aterrizaje = [] →
      g.vuelosDeCola g.cola_despegue = [] →
      g.seleccionar_vuelo_para_pista t = none)
  ∧ (g.vuelosDeCola g.cola_aterrizaje ≠ [] →
      ∃ v, g.seleccionar_vuelo_para_pista t = some v ∧
        v ∈ g.vuelosDeCola g.cola_aterrizaje ∧
        ∀ w ∈ g.vuelosDeCola g.cola_aterrizaje, clave t w ≤ clave t v)
  ∧ (g.vuelosDeCola g.cola_aterrizaje = [] →
      g.vuelosDeCola g.cola_despegue ≠ [] →
      ∃ v, g.seleccionar_vuelo_para_pista t = some v ∧
        v ∈ g.vuelosDeCola g.cola_despegue ∧
        ∀ w ∈ g.vuelosDeCola g.cola_despegue, clave t w ≤ clave t v) := by
  refine ⟨?_, ?_, ?_⟩
  · intro ha hd
    rw [GestorVuelos.seleccionar_vuelo_para_pista, ha, hd]
    rfl
  · intro ha
    obtain ⟨v, hv, hmem, hmax⟩ :=
      obtener_vuelo_prioritario_max (g.vuelosDeCola g.cola_aterrizaje) t ha
    refine ⟨v, ?_, hmem, hmax⟩
    rw [GestorVuelos.seleccionar_vuelo_para_pista, hv]
  · intro ha hd
    obtain ⟨v, hv, hmem, hmax⟩ :=
      obtener_vuelo_prioritario_max (g.vuelosDeCola g.cola_despegue) t hd
    refine ⟨v, ?_, hmem, hmax⟩
    rw [GestorVuelos.seleccionar_vuelo_para_pista, ha, hv]
    rfl

def vueloEmergencia : Vuelo :=
  Vuelo.inicial "EM2" "ATERRIZAJE" (some 0) none 2 (some 9) "EN_COLA"

def gestorSeleccion : GestorVuelos :=
  (GestorVuelos.inicial.anadir_vuelo vueloEscenarioA).anadir_vuelo
    vueloEmergencia

/-- Witness for C3: with a normal and an emergency landing queued, the
landing queue is non-empty and the selected flight dominates the queue. -/
theorem seleccionar_vuelo_spec_aplicado :
    gestorSeleccion.vuelosDeCola gestorSeleccion.cola_aterrizaje ≠ []
  ∧ ∃ v, gestorSeleccion.seleccionar_vuelo_para_pista 0 = some v ∧
      v ∈ gestorSeleccion.vuelosDeCola gestorSeleccion.cola_aterrizaje ∧
      ∀ w ∈ gestorSeleccion.vuelosDeCola gestorSeleccion.cola_aterrizaje,
        clave 0 w ≤ clave 0 v :=
  ⟨by decide, (seleccionar_vuelo_spec gestorSeleccion 0).2.1 (by decide)⟩

/-! ### Counting flights (C9) -/

theorem buscar_none_iff {β : Type} (m : List (String × β)) (k : String) :
    buscar m k = none ↔ k ∉ m.map Prod.fst := by
  induction m with
  | nil => simp [buscar]
  | cons kv rest ih =>
      obtain ⟨a, b⟩ := kv
      by_cases h : a = k
      · subst h
        simp [buscar]
      · have h' : ¬ k = a := fun hh => h hh.symm
        simp [buscar, h, h', ih]

theorem asignarClave_claves_nuevo {β : Type} {m : List (String × β)}
    {k : String} (v : β) (h : buscar m k = none) :
    (asignarClave m k v).map Prod.fst = m.map Prod.fst ++ [k] := by
  induction m with
  | nil => simp [asignarClave]
  | cons kv rest ih =>
      obtain ⟨a, b⟩ := kv
      by_cases ha : a = k
      · subst ha
        simp [buscar] at h
      · simp only [buscar, if_neg ha] at h
        simp only [asignarClave, if_neg ha, List.map_cons, ih h,
          List.cons_append]

theorem asignarClave_claves_existente {β : Type} {m : List (String × β)}
    {k : String} (v w : β) (h : buscar m k = some w) :
    (asignarClave m k v).map Prod.fst = m.map Prod.fst := by
  induction m with
  | nil => simp [buscar] at h
  | cons kv rest ih =>
      obtain ⟨a, b⟩ := kv
      by_cases ha : a = k
      · subst ha
        simp [asignarClave]
      · simp only [buscar, if_neg ha] at h
        simp only [asignarClave, if_neg ha, List.map_cons, ih h]

theorem asignarClave_length_nuevo {β : Type} {m : List (String × β)}
    {k : String} (v : β) (h : buscar m k = none) :
    (asignarClave m k v).length = m.length + 1 := by
  have h1 : (asignarClave m k v).length =
      ((asignarClave m k v).map Prod.fst).length := (List.length_map _ _).symm
  rw [h1, asignarClave_claves_nuevo v h]
  simp

theorem asignarClave_length_existente {β : Type} {m : List (String × β)}
    {k : String} (v w : β) (h : buscar m k = some w) :
    (asignarClave m k v).length = m.length := by
  have h1 : (asignarClave m k v).length =
      ((asignarClave m k v).map Prod.fst).length := (List.length_map _ _).symm
  rw [h1, asignarClave_claves_existente v w h]
  simp

/-- The operations of C9 on the flight ledger. -/
inductive OpVuelo where
  | alta (v : Vuelo)
  | asignar (id : String) (t : Int)
  | completar (id : String) (t : Int)

def aplicarOp (g : GestorVuelos) : OpVuelo → GestorVuelos
  | OpVuelo.alta v => g.anadir_vuelo v
  | OpVuelo.asignar id t => g.asignar_vuelo id t
  | OpVuelo.completar id t => g.completar_vuelo id t

def aplicarOps (g : GestorVuelos) (ops : List OpVuelo) : GestorVuelos :=
  ops.foldl aplicarOp g

/-- The ids of the requests added by a sequence of operations. -/
def idsAltas (ops : List OpVuelo) : List String :=
  ops.filterMap (fun op => match op with
    | OpVuelo.alta v => some v.id_vuelo
    | _ => none)

theorem anadir_vuelo_activos (g : GestorVuelos) (v : Vuelo) :
    (g.anadir_vuelo v).vuelos_activos =
      asignarClave g.vuelos_activos v.id_vuelo v := by
  unfold GestorVuelos.anadir_vuelo
  split <;> rfl

theorem asignar_vuelo_activos (g : GestorVuelos) (id : String) (t : Int) :
    ((g.asignar_vuelo id t).vuelos_activos.map Prod.fst =
        g.vuelos_activos.map Prod.fst)
  ∧ (g.asignar_vuelo id t).vuelos_activos.length =
      g.vuelos_activos.length := by
  unfold GestorVuelos.asignar_vuelo
  cases h : buscar g.vuelos_activos id with
  | none => exact ⟨rfl, rfl⟩
  | some v =>
      constructor
      · show (asignarClave g.vuelos_activos id _).map Prod.fst = _
        exact asignarClave_claves_existente _ v h
      · show (asignarClave g.vuelos_activos id _).length = _
        exact asignarClave_length_existente _ v h

theorem completar_vuelo_activos (g : GestorVuelos) (id : String) (t : Int) :
    ((g.completar_vuelo id t).vuelos_activos.map Prod.fst =
        g.vuelos_activos.map Prod.fst)
  ∧ (g.completar_vuelo id t).vuelos_activos.length =
      g.vuelos_activos.length := by
  unfold GestorVuelos.completar_vuelo
  cases h : buscar g.vuelos_activos id with
  | none => exact ⟨rfl, rfl⟩
  | some v =>
      constructor
      · show (asignarClave g.vuelos_activos id _).map Prod.fst = _
        exact asignarClave_claves_existente _ v h
      · show (asignarClave g.vuelos_activos id _).length = _
        exact asignarClave_length_existente _ v h

theorem aplicarOps_total (ops : List OpVuelo) :
    ∀ g : GestorVuelos,
      (g.vuelos_activos.map Prod.fst ++ idsAltas ops).Nodup →
      (aplicarOps g ops).vuelos_activos.length =
        g.vuelos_activos.length + (idsAltas ops).length := by
  induction ops with
  | nil =>
      intro g _
      simp [aplicarOps, idsAltas]
  | cons op rest ih =>
      intro g h
      cases op with
      | alta v =>
          have haltas : idsAltas (OpVuelo.alta v :: rest) =
              v.id_vuelo :: idsAltas rest := rfl
          rw [haltas] at h
          have hnodup := (List.nodup_append.1 h)
          have hfresh : v.id_vuelo ∉ g.vuelos_activos.map Prod.fst := by
            intro hmem
            exact (List.disjoint_left.1 hnodup.2.2) hmem
              (List.mem_cons_self _ _)
          have hnone : buscar g.vuelos_activos v.id_vuelo = none :=
            (buscar_none_iff _ _).2 hfresh
          have hcl : (g.anadir_vuelo v).vuelos_activos.map Prod.fst =
              g.vuelos_activos.map Prod.fst ++ [v.id_vuelo] := by
            rw [anadir_vuelo_activos]
            exact asignarClave_claves_nuevo _ hnone
          have hlen : (g.anadir_vuelo v).vuelos_activos.length =
              g.vuelos_activos.length + 1 := by
            rw [anadir_vuelo_activos]
            exact asignarClave_length_nuevo _ hnone
          have hrec : ((g.anadir_vuelo v).vuelos_activos.map Prod.fst ++
              idsAltas rest).Nodup := by
            rw [hcl, List.append_assoc, List.singleton_append]
            exact h
          have := ih (g.anadir_vuelo v) hrec
          show (aplicarOps (g.anadir_vuelo v) rest).vuelos_activos.length = _
          rw [this, hlen, haltas]
          simp
          omega
      | asignar id t =>
          have haltas : idsAltas (OpVuelo.asignar id t :: rest) =
              idsAltas rest := rfl
          rw [haltas] at h
          have hcl := asignar_vuelo_activos g id t
          have hrec : ((g.asignar_vuelo id t).vuelos_activos.map Prod.fst ++
              idsAltas rest).Nodup := by rw [hcl.1]; exact h
          have := ih (g.asignar_vuelo id t) hrec
          show (aplicarOps (g.asignar_vuelo id t) rest).vuelos_activos.length = _
          rw [this, hcl.2, haltas]
      | completar id t =>
          have haltas : idsAltas (OpVuelo.completar id t :: rest) =
              idsAltas rest := rfl
          rw [haltas] at h
          have hcl := completar_vuelo_activos g id t
          have hrec : ((g.completar_vuelo id t).vuelos_activos.map Prod.fst ++
              idsAltas rest).Nodup := by rw [hcl.1]; exact h
          have := ih (g.completar_vuelo id t) hrec
          show (aplicarOps (g.completar_vuelo id t) rest).vuelos_activos.length = _
          rw [this, hcl.2, haltas]

/-- C9: over any sequence of add/assign/complete operations whose added
ids are pairwise distinct, the `total` of `contar_vuelos_por_estado`
equals the number of requests ever added; assignment and completion never
change the total. -/
theorem contar_total_spec (ops : List OpVuelo)
    (h : (idsAltas ops).Nodup) :
    (aplicarOps GestorVuelos.inicial ops).contar_vuelos_por_estado.total =
      (idsAltas ops).length
  ∧ (∀ (g : GestorVuelos) (id : String) (t : Int),
      (g.asignar_vuelo id t).contar_vuelos_por_estado.total =
        g.contar_vuelos_por_estado.total)
  ∧ (∀ (g : GestorVuelos) (id : String) (t : Int),
      (g.completar_vuelo id t).contar_vuelos_por_estado.total =
        g.contar_vuelos_por_estado.total) := by
  refine ⟨?_, ?_, ?_⟩
  · have := aplicarOps_total ops GestorVuelos.inicial (by simpa using h)
    simpa [GestorVuelos.contar_vuelos_por_estado, GestorVuelos.inicial]
      using this
  · intro g id t
    exact (asignar_vuelo_activos g id t).2
  · intro g id t
    exact (completar_vuelo_activos g id t).2

/-- Witness for C9: adding two flights with distinct ids, assigning one and
completing it leaves the total at 2. -/
theorem contar_total_spec_aplicado :
    (idsAltas [OpVuelo.alta vueloEscenarioA, OpVuelo.alta vueloEmergencia,
        OpVuelo.asignar "IB1" 0, OpVuelo.completar "IB1" 2]).Nodup
  ∧ (aplicarOps GestorVuelos.inicial
      [OpVuelo.alta vueloEscenarioA, OpVuelo.alta vueloEmergencia,
        OpVuelo.asignar "IB1" 0, OpVuelo.completar "IB1" 2]
      ).contar_vuelos_por_estado.total =
      (idsAltas [OpVuelo.alta vueloEscenarioA, OpVuelo.alta vueloEmergencia,
        OpVuelo.asignar "IB1" 0, OpVuelo.completar "IB1" 2]).length :=
  ⟨by decide,
   (contar_total_spec _ (by decide)).1⟩

/-! ### Occupancy coherence (C7) -/

/-- A runway is occupied exactly when it records an occupant id. -/
def ocupacionCoherente (p : Pista) : Prop :=
  p.libre = false ↔ p.vuelo_actual ≠ none

theorem ocupacionCoherente_asignar (p : Pista) (id : String) (t : Int) :
    ocupacionCoherente (p.asignar id t) := by
  unfold ocupacionCoherente Pista.asignar
  simp

theorem ocupacionCoherente_liberar (p : Pista) :
    ocupacionCoherente p.liberar.1 := by
  unfold ocupacionCoherente Pista.liberar
  simp

theorem asignarBucle_pistas_todas (t : Int) (P : Pista → Prop)
    (hP : ∀ (p : Pista) (id : String) (t' : Int), P (p.asignar id t')) :
    ∀ (ids : List String) (gv : GestorVuelos) (gp : GestorPistas),
      (∀ kp ∈ gp.pistas, P kp.2) →
      ∀ kp ∈ (asignarBucle t ids gv gp).2.pistas, P kp.2 := by
  intro ids
  induction ids with
  | nil => intro gv gp h kp hkp; exact h kp hkp
  | cons idPista resto ih =>
      intro gv gp h kp hkp
      rw [asignarBucle] at hkp
      rcases hsel : gv.seleccionar_vuelo_para_pista t with _ | v
      · rw [hsel] at hkp
        exact h kp hkp
      · rw [hsel] at hkp
        rcases hb : buscar gp.pistas idPista with _ | p
        · rw [hb] at hkp
          exact ih _ _ h kp hkp
        · rw [hb] at hkp
          refine ih _ _ ?_ kp hkp
          intro kq hkq
          rcases mem_asignarClave hkq with hm | hm
          · exact h kq hm
          · rw [hm]
            exact hP p v.id_vuelo t

theorem actualizar_pistas_todas (t : Int) (P : Pista → Prop)
    (hlib : ∀ p : Pista, P p.liberar.1) (gp : GestorPistas)
    (h : ∀ kp ∈ gp.pistas, P kp.2) :
    ∀ kp ∈ (gp.actualizar_pistas t).1.pistas, P kp.2 := by
  intro kp hkp
  rw [GestorPistas.actualizar_pistas] at hkp
  simp only [List.mem_map] at hkp
  obtain ⟨kq, hkq, hmap⟩ := hkp
  rw [← hmap, liberarSiVence]
  by_cases hv : kq.2.vencida t = true
  · rw [if_pos hv]
    exact hlib kq.2
  · rw [if_neg hv]
    exact h kq hkq

theorem avanzar_minuto_pistas_todas (P : Pista → Prop)
    (hP : ∀ (p : Pista) (id : String) (t' : Int), P (p.asignar id t'))
    (hlib : ∀ p : Pista, P p.liberar.1) (s : Simulacion)
    (h : ∀ kp ∈ s.gestor_pistas.pistas, P kp.2) :
    ∀ kp ∈ s.avanzar_minuto.1.gestor_pistas.pistas, P kp.2 := by
  rw [Simulacion.avanzar_minuto]
  by_cases hs : s.en_simulacion = true
  · rw [if_neg (by simp [hs])]
    exact asignarBucle_pistas_todas _ P hP _ _ _
      (actualizar_pistas_todas _ P hlib _ h)
  · rw [if_pos (by simpa using hs)]
    exact h

/-- C7: a freshly constructed runway, the result of `asignar`, the result
of `liberar` and every runway in the pool after a tick all satisfy
"occupied exactly when an occupant id is recorded", provided every runway
satisfied it before the tick. -/
theorem coherencia_ocupacion_spec (s : Simulacion)
    (h : ∀ kp ∈ s.gestor_pistas.pistas, ocupacionCoherente kp.2) :
    (∀ (id cat : String) (uso hab : Int),
      ocupacionCoherente (Pista.inicial id cat uso hab))
  ∧ (∀ (p : Pista) (id : String) (t : Int), ocupacionCoherente (p.asignar id t))
  ∧ (∀ p : Pista, ocupacionCoherente p.liberar.1)
  ∧ (∀ kp ∈ s.avanzar_minuto.1.gestor_pistas.pistas,
      ocupacionCoherente kp.2) := by
  refine ⟨?_, ocupacionCoherente_asignar, ocupacionCoherente_liberar, ?_⟩
  · intro id cat uso hab
    unfold ocupacionCoherente Pista.inicial
    simp
  · exact avanzar_minuto_pistas_todas ocupacionCoherente
      ocupacionCoherente_asignar ocupacionCoherente_liberar s h

/-- Witness for C7: the Scenario A state after one tick has a coherent
pool (its single runway is occupied by IB1), and ticking preserves it. -/
theorem coherencia_ocupacion_spec_aplicado :
    ocupacionCoherente (Pista.inicial "R1" "corta" 2 1)
  ∧ ocupacionCoherente ((Pista.inicial "R1" "corta" 2 1).asignar "IB1" 0) :=
  ⟨(coherencia_ocupacion_spec escenarioA1
      (by unfold ocupacionCoherente; decide)).1 "R1" "corta" 2 1,
   (coherencia_ocupacion_spec escenarioA1
      (by unfold ocupacionCoherente; decide)).2.1
     (Pista.inicial "R1" "corta" 2 1) "IB1" 0⟩

/-! ### Disabled runways (C6) -/

/-- States reachable from a freshly constructed controller that was
initialized with any flights and any freshly constructed runways, by any
number of ticks. -/
inductive Alcanzable : Simulacion → Prop
  | inicial (vuelos : List Vuelo)
      (datos : List (String × String × Int × Int)) :
      Alcanzable (Simulacion.nueva.inicializar_sistema vuelos
        (datos.map (fun d => Pista.inicial d.1 d.2.1 d.2.2.1 d.2.2.2)))
  | paso (s : Simulacion) : Alcanzable s → Alcanzable s.avanzar_minuto.1

/-- Pool invariant: stored keys match the runway ids, keys are unique, and
a disabled runway is free with no occupant. -/
def InvPistas (gp : GestorPistas) : Prop :=
  (∀ kp ∈ gp.pistas, kp.2.id_pista = kp.1)
  ∧ (gp.pistas.map Prod.fst).Nodup
  ∧ ∀ kp ∈ gp.pistas, kp.2.habilitada = 0 →
      kp.2.libre = true ∧ kp.2.vuelo_actual = none

theorem mem_unico {β : Type} {m : List (String × β)}
    (hnd : (m.map Prod.fst).Nodup) {k : String} {a b : β}
    (ha : (k, a) ∈ m) (hb : (k, b) ∈ m) : a = b := by
  induction m with
  | nil => cases ha
  | cons kv rest ih =>
      rw [List.map_cons, List.nodup_cons] at hnd
      rcases List.mem_cons.1 ha with h1 | h1 <;>
        rcases List.mem_cons.1 hb with h2 | h2
      · exact congrArg Prod.snd (h1.trans h2.symm)
      · exfalso
        apply hnd.1
        rw [← h1]
        exact List.mem_map.2 ⟨(k, b), h2, rfl⟩
      · exfalso
        apply hnd.1
        rw [← h2]
        exact List.mem_map.2 ⟨(k, a), h1, rfl⟩
      · exact ih hnd.2 h1 h2

theorem InvPistas_anadir (gp : GestorPistas) (p : Pista)
    (hinv : InvPistas gp) (hp : p.libre = true ∧ p.vuelo_actual = none) :
    InvPistas (gp.anadir_pista p) := by
  obtain ⟨hkey, hnd, hdis⟩ := hinv
  refine ⟨?_, ?_, ?_⟩
  · intro kp hkp
    rcases mem_asignarClave hkp with h | h
    · exact hkey kp h
    · rw [h]
  · show (asignarClave gp.pistas p.id_pista p).map Prod.fst |>.Nodup
    cases hb : buscar gp.pistas p.id_pista with
    | none =>
        rw [asignarClave_claves_nuevo p hb]
        rw [List.nodup_append]
        refine ⟨hnd, List.nodup_singleton _, ?_⟩
        intro x hx hx1
        rw [List.mem_singleton] at hx1
        subst hx1
        exact (buscar_none_iff _ _).1 hb hx
    | some w =>
        rw [asignarClave_claves_existente p w hb]
        exact hnd
  · intro kp hkp h0
    rcases mem_asignarClave hkp with h | h
    · exact hdis kp h h0
    · rw [h]
      exact hp

theorem InvPistas_foldl_anadir (pistas : List Pista) :
    ∀ gp : GestorPistas, InvPistas gp →
      (∀ p ∈ pistas, p.libre = true ∧ p.vuelo_actual = none) →
      InvPistas (pistas.foldl GestorPistas.anadir_pista gp) := by
  induction pistas with
  | nil => intro gp hinv _; exact hinv
  | cons p rest ih =>
      intro gp hinv hps
      exact ih _ (InvPistas_anadir gp p hinv (hps p (List.mem_cons_self _ _)))
        (fun q hq => hps q (List.mem_cons_of_mem _ hq))

theorem claves_map_liberar (t : Int) (l : List (String × Pista)) :
    (l.map (liberarSiVence t)).map Prod.fst = l.map Prod.fst := by
  induction l with
  | nil => rfl
  | cons kp rest ih =>
      simp only [List.map_cons, ih]
      congr 1
      rw [liberarSiVence]
      split <;> rfl

theorem InvPistas_actualizar (gp : GestorPistas) (t : Int)
    (hinv : InvPistas gp) : InvPistas (gp.actualizar_pistas t).1 := by
  obtain ⟨hkey, hnd, hdis⟩ := hinv
  refine ⟨?_, ?_, ?_⟩
  · intro kp hkp
    simp only [GestorPistas.actualizar_pistas, List.mem_map] at hkp
    obtain ⟨kq, hkq, hmap⟩ := hkp
    rw [← hmap, liberarSiVence]
    by_cases hv : kq.2.vencida t = true
    · rw [if_pos hv]
      exact hkey kq hkq
    · rw [if_neg hv]
      exact hkey kq hkq
  · show (gp.pistas.map (liberarSiVence t)).map Prod.fst |>.Nodup
    rw [claves_map_liberar]
    exact hnd
  · intro kp hkp h0
    simp only [GestorPistas.actualizar_pistas, List.mem_map] at hkp
    obtain ⟨kq, hkq, hmap⟩ := hkp
    rw [← hmap, liberarSiVence] at h0 ⊢
    by_cases hv : kq.2.vencida t = true
    · rw [if_pos hv]
      exact ⟨rfl, rfl⟩
    · rw [if_neg hv] at h0 ⊢
      exact hdis kq hkq h0

theorem InvPistas_asignarBucle (t : Int) :
    ∀ (ids : List String) (gv : GestorVuelos) (gp : GestorPistas),
      InvPistas gp →
      (∀ id ∈ ids, ∀ p, buscar gp.pistas id = some p → p.habilitada ≠ 0) →
      InvPistas (asignarBucle t ids gv gp).2 := by
  intro ids
  induction ids with
  | nil => intro gv gp hinv _; exact hinv
  | cons idPista resto ih =>
      intro gv gp hinv hen
      rw [asignarBucle]
      rcases hsel : gv.seleccionar_vuelo_para_pista t with _ | v
      · exact hinv
      · rcases hb : buscar gp.pistas idPista with _ | p
        · exact ih _ _ hinv
            (fun id hid => hen id (List.mem_cons_of_mem _ hid))
        · obtain ⟨hkey, hnd, hdis⟩ := hinv
          have hpid : p.id_pista = idPista := hkey _ (buscar_mem hb)
          have hen0 : p.habilitada ≠ 0 :=
            hen idPista (List.mem_cons_self _ _) p hb
          have hinv' : InvPistas
              ⟨asignarClave gp.pistas idPista (p.asignar v.id_vuelo t)⟩ := by
            refine ⟨?_, ?_, ?_⟩
            · intro kp hkp
              rcases mem_asignarClave hkp with h | h
              · exact hkey kp h
              · rw [h]
                exact hpid
            · show (asignarClave gp.pistas idPista _).map Prod.fst |>.Nodup
              rw [asignarClave_claves_existente _ p hb]
              exact hnd
            · intro kp hkp h0
              rcases mem_asignarClave hkp with h | h
              · exact hdis kp h h0
              · rw [h] at h0
                exact absurd h0 hen0
          refine ih _ _ hinv' ?_
          intro id hid q hq
          rw [show (⟨asignarClave gp.pistas idPista
              (p.asignar v.id_vuelo t)⟩ : GestorPistas).pistas =
              asignarClave gp.pistas idPista (p.asignar v.id_vuelo t) from rfl,
            buscar_asignarClave] at hq
          by_cases hii : idPista = id
          · rw [if_pos hii] at hq
            cases hq
            exact hen0
          · rw [if_neg hii] at hq
            exact hen id (List.mem_cons_of_mem _ hid) q hq

theorem ids_libres_habilitadas (gp : GestorPistas) (t : Int)
    (hinv : InvPistas gp) :
    ∀ id ∈ (gp.obtener_pistas_libres t).map Pista.id_pista,
      ∀ p, buscar gp.pistas id = some p → p.habilitada ≠ 0 := by
  intro id hid p hp
  obtain ⟨hkey, hnd, -⟩ := hinv
  obtain ⟨q, hqfil, hqid⟩ := List.mem_map.1 hid
  obtain ⟨hqmem, hqdisp⟩ := List.mem_filter.1 hqfil
  obtain ⟨kq, hkq, hq2⟩ := List.mem_map.1 hqmem
  have hkqid : kq.1 = id := by
    rw [← hqid, ← hq2]
    exact (hkey kq hkq).symm
  have hqmem' : (id, q) ∈ gp.pistas := by
    rw [← hkqid, ← hq2]
    exact hkq
  have hpq : p = q := mem_unico hnd (buscar_mem hp) hqmem'
  rw [hpq]
  intro h0
  rw [Pista.esta_disponible, if_pos h0] at hqdisp
  cases hqdisp

theorem InvPistas_alcanzable (s : Simulacion) (h : Alcanzable s) :
    InvPistas s.gestor_pistas := by
  induction h with
  | inicial vuelos datos =>
      show InvPistas ((datos.map (fun d => Pista.inicial d.1 d.2.1 d.2.2.1
        d.2.2.2)).foldl GestorPistas.anadir_pista GestorPistas.inicial)
      apply InvPistas_foldl_anadir
      · refine ⟨?_, ?_, ?_⟩
        · intro kp hkp
          cases hkp
        · exact List.nodup_nil
        · intro kp hkp
          cases hkp
      · intro p hp
        simp only [List.mem_map] at hp
        obtain ⟨d, -, hd⟩ := hp
        rw [← hd]
        exact ⟨rfl, rfl⟩
  | paso s hs ih =>
      rw [Simulacion.avanzar_minuto]
      by_cases hr : s.en_simulacion = true
      · rw [if_neg (by simp [hr])]
        apply InvPistas_asignarBucle
        · exact InvPistas_actualizar _ _ ih
        · exact ids_libres_habilitadas _ _ (InvPistas_actualizar _ _ ih)
      · rw [if_pos (by simpa using hr)]
        exact ih

/-- C6: in every reachable state, a disabled runway (enabled flag 0) is
never in the availability query's result, and never has a flight assigned
to it (it is free with no occupant). -/
theorem pista_deshabilitada_spec (s : Simulacion) (h : Alcanzable s)
    (t : Int) (p : Pista) :
    (p ∈ s.gestor_pistas.obtener_pistas_libres t → p.habilitada ≠ 0)
  ∧ (∀ id, buscar s.gestor_pistas.pistas id = some p → p.habilitada = 0 →
      p.libre = true ∧ p.vuelo_actual = none) := by
  constructor
  · intro hp h0
    obtain ⟨-, hdisp⟩ := List.mem_filter.1 hp
    rw [Pista.esta_disponible, if_pos h0] at hdisp
    cases hdisp
  · intro id hid h0
    exact (InvPistas_alcanzable s h).2.2 (id, p) (buscar_mem hid) h0

def pistaDeshabilitada : Pista := Pista.inicial "R9" "corta" 3 0

def simDeshabilitada : Simulacion :=
  Simulacion.nueva.inicializar_sistema [vueloSinEta]
    ([("R9", ("corta", (3, 0)))].map
      (fun d => Pista.inicial d.1 d.2.1 d.2.2.1 d.2.2.2))

/-- Witness for C6: after one tick of a system holding one disabled runway
and one queued landing, the disabled runway is still free and unoccupied. -/
theorem pista_deshabilitada_spec_aplicado :
    pistaDeshabilitada.libre = true ∧ pistaDeshabilitada.vuelo_actual = none :=
  (pista_deshabilitada_spec simDeshabilitada.avanzar_minuto.1
      (Alcanzable.paso _
        (Alcanzable.inicial [vueloSinEta] [("R9", ("corta", (3, 0)))]))
      0 pistaDeshabilitada).2 "R9" (by decide) (by decide)

end Aviones
